import Mathlib

-- Verification development for the acquisition-configuration and
-- frame-sequencing logic of pylonctl (src/pylonctl/camera.py).
--
-- Modelling conventions:
--   * A device register write is a `RegWrite` (register name plus written
--     value); functions that configure the camera are embedded as the list
--     of successful register writes they perform, in program order.
--   * Python floats are modelled as exact rationals; Python ints as `Int`.
--   * Exceptions are modelled with `Option`-style error components: a
--     function that can raise returns the writes performed before the
--     raise together with the error, when one occurred.
--   * Device capabilities (which optional registers exist, which transport
--     is used) are explicit fields of a capability record, standing for the
--     `genicam.LogicalErrorException` try/except probes of the source.

set_option maxHeartbeats 1000000

/-- Python `str.lower()` on the ASCII register/source names used here,
modelled character-wise (kernel-reducible, unlike `String.toLower`). -/
def pyLower (s : String) : String := ⟨s.data.map Char.toLower⟩

/-- Evaluation helper for ceilings of concrete rationals. -/
lemma ceil_eval (q : Rat) (n : Int) (h1 : (n : Rat) - 1 < q) (h2 : q ≤ n) :
    ⌈q⌉ = n :=
  Int.ceil_eq_iff.mpr ⟨by exact_mod_cast h1, h2⟩

/-- Evaluation helper for floors of concrete rationals. -/
lemma floor_eval (q : Rat) (n : Int) (h1 : (n : Rat) ≤ q) (h2 : q < n + 1) :
    ⌊q⌋ = n :=
  Int.floor_eq_iff.mpr ⟨h1, by exact_mod_cast h2⟩

/-- A value written to a camera register: int, float (rational), string or
boolean, mirroring the Python value written. -/
inductive Val where
  | i : Int → Val
  | q : Rat → Val
  | s : String → Val
  | b : Bool → Val
deriving DecidableEq, Repr

/-- One register write performed on the camera: register name and value. -/
structure RegWrite where
  reg : String
  val : Val
deriving DecidableEq, Repr

/-- Device capabilities probed by `prepare_acq` via try/except, plus the
sensor maximum size (`WidthMax.Value`, `HeightMax.Value`). -/
structure DevCaps where
  hasExposureTime : Bool
  hasExposureTimeAbs : Bool
  hasBinning : Bool
  widthMax : Int
  heightMax : Int
deriving DecidableEq, Repr

/-- The exposure-register writes of `prepare_acq` (camera.py lines 119-130):
try `ExposureTime`, fall back to `ExposureTimeAbs`, fall back to the
base+raw scheme `ExposureTimeBaseAbs := 100`, `ExposureTimeRaw :=
ceil(exposure / 50.0)`, `ExposureTimeBaseAbs := (exposure / raw) * 1e6`.
`exposure` is in seconds, exactly as in the source. -/
def exposureWrites (caps : DevCaps) (exposure : Rat) : List RegWrite :=
  if caps.hasExposureTime then
    [⟨"ExposureTime", .q (exposure * 1000000)⟩]
  else if caps.hasExposureTimeAbs then
    [⟨"ExposureTimeAbs", .q (exposure * 1000000)⟩]
  else
    [⟨"ExposureTimeBaseAbs", .q 100⟩,
     ⟨"ExposureTimeRaw", .i ⌈exposure / 50⌉⟩,
     ⟨"ExposureTimeBaseAbs", .q ((exposure / (⌈exposure / 50⌉ : Rat)) * 1000000)⟩]

/-- The frame-rate writes of `prepare_acq` (camera.py lines 131-136):
disable rate limiting when latency < 1e-6 s, otherwise enable it and set
the rate to `1 / (latency + exposure)` Hz. -/
def frameRateWrites (exposure latency : Rat) : List RegWrite :=
  if latency < 1 / 1000000 then
    [⟨"AcquisitionFrameRateEnable", .b false⟩]
  else
    [⟨"AcquisitionFrameRateEnable", .b true⟩,
     ⟨"AcquisitionFrameRateAbs", .q (1 / (latency + exposure))⟩]

/-- The full ordered register-write sequence of `prepare_acq`
(camera.py lines 118-159): exposure scheme, frame rate, binning reset
(guarded by a try/except on devices without binning), offset/size reset to
full frame, pixel format, requested ROI (defaulting to full frame), and
finally the plan's binning when it is not (1, 1). -/
def prepare_acq_writes (caps : DevCaps) (exposure latency : Rat)
    (roi : Option (Int × Int × Int × Int)) (binning : Int × Int)
    (pixel_format : String) : List RegWrite :=
  let r := roi.getD (0, 0, caps.widthMax, caps.heightMax)
  exposureWrites caps exposure
    ++ frameRateWrites exposure latency
    ++ (if caps.hasBinning then
          [⟨"BinningHorizontal", .i 1⟩, ⟨"BinningVertical", .i 1⟩]
        else [])
    ++ [⟨"OffsetX", .i 0⟩, ⟨"OffsetY", .i 0⟩,
        ⟨"Width", .i caps.widthMax⟩, ⟨"Height", .i caps.heightMax⟩,
        ⟨"PixelFormat", .s pixel_format⟩]
    ++ [⟨"Width", .i r.2.2.1⟩, ⟨"Height", .i r.2.2.2⟩,
        ⟨"OffsetX", .i r.1⟩, ⟨"OffsetY", .i r.2.1⟩]
    ++ (if binning ≠ (1, 1) then
          [⟨"BinningHorizontal", .i binning.1⟩, ⟨"BinningVertical", .i binning.2⟩]
        else [])

/-- The trigger source map of camera.py line 162. -/
def TRIGGER_SOURCE_MAP : List (String × String) :=
  [("internal", "Off"), ("line1", "Line1"), ("software", "Software")]

/-- Association-list lookup, modelling Python dict indexing (`d[k]`). -/
def mapLookup : List (String × String) → String → Option String
  | [], _ => none
  | (k, v) :: rest, key => if key = k then some v else mapLookup rest key

/-- Errors `set_trigger` can raise: `KeyError` from the source-map lookup,
`IndexError` from `selectors[0]` on an empty selector list. -/
inductive TrigErr where
  | keyError : String → TrigErr
  | indexError : TrigErr
deriving DecidableEq, Repr

/-- The selector-reset loop of `set_trigger` (camera.py lines 169-171):
for each available selector, select it and force its trigger mode Off. -/
def resetWrites : List String → List RegWrite
  | [] => []
  | sel :: rest =>
      ⟨"TriggerSelector", .s sel⟩ :: ⟨"TriggerMode", .s "Off"⟩ :: resetWrites rest

/-- The selector chosen by `set_trigger` for a non-Off source:
`"FrameStart" if "FrameStart" in selectors else selectors[0]`. -/
def chosenSelector (selectors : List String) : Option String :=
  if "FrameStart" ∈ selectors then some "FrameStart" else selectors.head?

/-- `set_trigger` (camera.py lines 165-179) as the pair of the register
writes it performs, in order, and the error it raises, when any.  The map
lookup happens before any write, so a `KeyError` leaves the write list
empty; `selectors[0]` on an empty list raises after the (empty) reset
loop. -/
def set_trigger (selectors : List String) (source activation : String) :
    List RegWrite × Option TrigErr :=
  match mapLookup TRIGGER_SOURCE_MAP (pyLower source) with
  | none => ([], some (.keyError (pyLower source)))
  | some src =>
    let resets := resetWrites selectors
    if src = "Off" then
      (resets ++ [⟨"AcquisitionMode", .s "Continuous"⟩], none)
    else
      match chosenSelector selectors with
      | none => (resets, some .indexError)
      | some sel =>
          (resets
            ++ [⟨"TriggerSelector", .s sel⟩, ⟨"TriggerMode", .s "On"⟩,
                ⟨"TriggerSource", .s src⟩]
            ++ (if src = "Software" then []
                else [⟨"TriggerActivation", .s activation⟩])
            ++ [⟨"AcquisitionMode", .s "Continuous"⟩], none)

-- ## The Acquisition sequencer (camera.py lines 182-236)

/-- Python `int()` applied to a float, which truncates toward zero. -/
def pyInt (q : Rat) : Int := if 0 ≤ q then ⌊q⌋ else ⌈q⌉

/-- The state of an `Acquisition` object: the `prepared` flag plus the
immutable plan fields given to `__init__`. -/
structure AcqObj where
  prepared : Bool
  nb_frames : Nat
  exposure : Rat
  latency : Rat
  roi : Option (Int × Int × Int × Int)
  binning : Int × Int
  pixel_format : String
  trigger : String
deriving DecidableEq, Repr

/-- `self.period = exposure + latency` from `Acquisition.__init__`. -/
def AcqObj.period (a : AcqObj) : Rat := a.exposure + a.latency

/-- `wait_ms = int((self.period + 1) * 1000)` from `Acquisition.__next__`
(camera.py line 225). -/
def AcqObj.wait_ms (a : AcqObj) : Int := pyInt ((a.period + 1) * 1000)

/-- `Acquisition.prepare` (camera.py lines 209-216): if already prepared,
return without writes; otherwise run `prepare_acq` and set the flag.
Returns the updated object and the register writes performed. -/
def AcqObj.prepare (caps : DevCaps) (a : AcqObj) : AcqObj × List RegWrite :=
  if a.prepared then (a, [])
  else ({ a with prepared := true },
        prepare_acq_writes caps a.exposure a.latency a.roi a.binning a.pixel_format)

/-- Commands issued to the camera by the sequencing code. -/
inductive Cmd where
  | write : RegWrite → Cmd
  | startGrabMax : Nat → Cmd
  | startGrab : Cmd
  | waitTriggerReady : Cmd
  | softwareTrigger : Cmd
  | retrieve : Int → Cmd
  | stopGrab : Cmd
deriving DecidableEq, Repr

/-- Vendor-SDK grab state, modelled from the spec and the pypylon
documentation of `StartGrabbingMax`: after `StartGrabbingMax(n)` the camera
is grabbing with `n` frames remaining and stops grabbing by itself once the
n-th result has been retrieved; after plain `StartGrabbing` it grabs
unboundedly (`remaining = none`). -/
structure GrabState where
  grabbing : Bool
  remaining : Option Nat
deriving DecidableEq, Repr

/-- One `RetrieveResult` against the grab state: with a bounded grab the
remaining count decreases, and grabbing ends when it reaches zero. -/
def retrieveStep (s : GrabState) : GrabState :=
  match s.remaining with
  | none => s
  | some n => if n ≤ 1 then ⟨false, some 0⟩ else ⟨true, some (n - 1)⟩

/-- `Acquisition.__next__` (camera.py lines 221-229): raise `StopIteration`
(`none`) when the camera is no longer grabbing; otherwise, for a software
trigger first wait for trigger readiness and pulse the software trigger,
then retrieve one result with the computed timeout.  Returns the commands
issued and the successor grab state. -/
def nextStep (trigger : String) (waitMs : Int) (s : GrabState) :
    Option (List Cmd × GrabState) :=
  if s.grabbing then
    some ((if trigger = "software" then [Cmd.waitTriggerReady, Cmd.softwareTrigger]
           else []) ++ [Cmd.retrieve waitMs],
          retrieveStep s)
  else none

/-- Iterating `next` on the acquisition until `StopIteration`, with fuel
bounding the number of iterations.  Returns the number of frame outcomes
yielded, the commands issued, and the final grab state. -/
def iterAcq (trigger : String) (waitMs : Int) :
    Nat → GrabState → Nat × List Cmd × GrabState
  | 0, s => (0, [], s)
  | fuel + 1, s =>
    match nextStep trigger waitMs s with
    | none => (0, [], s)
    | some (cmds, s1) =>
      let r := iterAcq trigger waitMs fuel s1
      (r.1 + 1, cmds ++ r.2.1, r.2.2)

/-- `self.start` from `Acquisition.__init__` (camera.py lines 204-207):
`StartGrabbingMax(nb_frames)` when `nb_frames` is nonzero, else unbounded
`StartGrabbing`. -/
def AcqObj.start (a : AcqObj) : Cmd × GrabState :=
  if a.nb_frames ≠ 0 then (Cmd.startGrabMax a.nb_frames, ⟨true, some a.nb_frames⟩)
  else (Cmd.startGrab, ⟨true, none⟩)

/-- A full acquisition run as performed by the CLI (`with acq: acq.start();
iterate until exhaustion`): `__enter__` calls `prepare`, then `start`, then
the iteration; `Acquisition.__exit__` (camera.py lines 235-236) is `pass`
and issues no command.  Returns the number of frame outcomes yielded and
the complete command trace. -/
def acquisitionSession (caps : DevCaps) (a : AcqObj) (fuel : Nat) :
    Nat × List Cmd :=
  let prep := ((a.prepare caps).2).map Cmd.write
  let st := a.start
  let r := iterAcq a.trigger a.wait_ms fuel st.2
  (r.1, prep ++ st.1 :: r.2.1)

/-- The `ensure_grab_stop` context manager (camera.py lines 110-115): run
the body and, in a `finally` block, issue one `StopGrabbing` — also when
the body exits with an error. -/
def ensure_grab_stop (body : List Cmd × Option String) :
    List Cmd × Option String :=
  (body.1 ++ [Cmd.stopGrab], body.2)

-- ## The Configuration handler (camera.py lines 239-269)

/-- Device as seen by `Configuration.apply_config`: transport kind, the set
of registers whose write raises on this device, whether `TriggerSelector`
is writable, and the available trigger selectors. -/
structure NetDev where
  isGigE : Bool
  failing : List String
  triggerWritable : Bool
  selectors : List String
deriving DecidableEq, Repr

/-- The class attributes of `Configuration` (camera.py lines 241-245). -/
structure NetConfig where
  packet_size : Int
  inter_packet_delay : Int
  frame_transmission_delay : Int
  output_queue_size : Int
  trigger_source : String
deriving DecidableEq, Repr

/-- Perform a sequence of register writes on a device, stopping at the
first register whose write raises; returns the writes that succeeded and
the name of the register that raised, when one did. -/
def writeSeq (dev : NetDev) : List RegWrite → List RegWrite × Option String
  | [] => ([], none)
  | w :: ws =>
    if w.reg ∈ dev.failing then ([], some w.reg)
    else
      let r := writeSeq dev ws
      (w :: r.1, r.2)

/-- `Configuration.apply_config` (camera.py lines 255-269): write the GigE
pacing registers only on a GigE device; then, when `TriggerSelector` is
writable, run `set_trigger`; then write `OutputQueueSize`.  There is no
try/except inside `apply_config`, so an exception in any step aborts the
remaining steps; the pair returned is (writes performed, error raised). -/
def apply_config (dev : NetDev) (cfg : NetConfig) : List RegWrite × Option String :=
  let gige : List RegWrite :=
    if dev.isGigE then
      [⟨"GevSCPSPacketSize", .i cfg.packet_size⟩,
       ⟨"GevSCPD", .i cfg.inter_packet_delay⟩,
       ⟨"GevSCFTD", .i cfg.frame_transmission_delay⟩]
    else []
  let g := writeSeq dev gige
  match g.2 with
  | some e => (g.1, some e)
  | none =>
    let t :=
      if dev.triggerWritable then
        set_trigger dev.selectors cfg.trigger_source "RisingEdge"
      else ([], none)
    match t.2 with
    | some _ => (g.1 ++ t.1, some "TriggerError")
    | none =>
      let q := writeSeq dev [⟨"OutputQueueSize", .i cfg.output_queue_size⟩]
      (g.1 ++ t.1 ++ q.1, q.2)

/-- `Configuration.OnOpened` (camera.py lines 247-253): call `apply_config`
and catch any exception, logging it.  Returns the writes performed and
whether an exception was caught and logged. -/
def OnOpened (dev : NetDev) (cfg : NetConfig) : List RegWrite × Bool :=
  match apply_config dev cfg with
  | (ws, some _) => (ws, true)
  | (ws, none) => (ws, false)

-- ## parameter_encode (camera.py lines 306-316)

/-- GenICam node interface types distinguished by `parameter_encode`'s
isinstance chain and the `TypeMap` of camera.py. -/
inductive NodeType where
  | IInteger
  | IFloat
  | IString
  | IBoolean
  | IEnumeration
  | ICategory
  | ICommand
  | IRegister
deriving DecidableEq, Repr

/-- A Python value passed to or returned from `parameter_encode`. -/
inductive PyValue where
  | int : Int → PyValue
  | float : Rat → PyValue
  | str : String → PyValue
  | bool : Bool → PyValue
  | pynone : PyValue
deriving DecidableEq, Repr

/-- Python `int(v)`, modelled from the built-in: ints pass through, bools
become 0/1, floats truncate, numeric strings parse (`none` = `ValueError`),
and `None` is not convertible. -/
def pyToInt : PyValue → Option Int
  | .int n => some n
  | .bool b => some (if b then 1 else 0)
  | .float q => some (pyInt q)
  | .str s => s.toInt?
  | .pynone => none

/-- Python `float(v)`, modelled from the built-in. -/
def pyToFloat : PyValue → Option Rat
  | .int n => some n
  | .bool b => some (if b then 1 else 0)
  | .float q => some q
  | .str _ => none
  | .pynone => none

/-- Python `str(v)`, modelled from the built-in. -/
def pyToStr : PyValue → String
  | .int n => toString n
  | .float _ => "float"
  | .str s => s
  | .bool b => if b then "True" else "False"
  | .pynone => "None"

/-- Membership of `v` in the literal set `{'false', 'False', 0, None}` of
camera.py line 314, using Python equality (`False == 0`, `0.0 == 0`). -/
def inFalsySet : PyValue → Bool
  | .str s => s = "false" ∨ s = "False"
  | .int n => n = 0
  | .float q => q = 0
  | .bool b => b = false
  | .pynone => true

/-- An outcome of `parameter_encode`: a converted value, a `ValueError`
from the conversion function, or the `UnboundLocalError` that occurs when
no isinstance branch assigned `f`. -/
inductive EncodeResult where
  | val : PyValue → EncodeResult
  | valueError : EncodeResult
  | unboundLocal : EncodeResult
deriving DecidableEq, Repr

/-- `parameter_encode` (camera.py lines 306-316): choose a conversion by
the node's interface type — int, float, str, or the falsy-set lambda for
booleans — and apply it; for every other node type (enumeration is an
explicit TODO in the source) the local `f` was never assigned and the call
fails with `UnboundLocalError`. -/
def parameter_encode (ptype : NodeType) (value : PyValue) : EncodeResult :=
  match ptype with
  | .IInteger =>
    match pyToInt value with
    | some n => .val (.int n)
    | none => .valueError
  | .IFloat =>
    match pyToFloat value with
    | some q => .val (.float q)
    | none => .valueError
  | .IString => .val (.str (pyToStr value))
  | .IBoolean => .val (.bool (!inFalsySet value))
  | _ => .unboundLocal

-- ## Geometry register state (for the ROI invariant of prepare_acq)

/-- The geometry registers of the device tracked by the ROI invariant. -/
structure GeomState where
  offsetX : Int
  offsetY : Int
  width : Int
  height : Int
deriving DecidableEq, Repr

/-- The integer carried by a write (geometry registers hold ints). -/
def Val.toIntD : Val → Int
  | .i n => n
  | _ => 0

/-- Effect of one register write on the geometry registers; writes to
other registers leave them unchanged. -/
def applyWrite (s : GeomState) (w : RegWrite) : GeomState :=
  if w.reg = "OffsetX" then { s with offsetX := w.val.toIntD }
  else if w.reg = "OffsetY" then { s with offsetY := w.val.toIntD }
  else if w.reg = "Width" then { s with width := w.val.toIntD }
  else if w.reg = "Height" then { s with height := w.val.toIntD }
  else s

/-- All geometry states reached while performing a write sequence,
including the initial and final states. -/
def geomTrace (s : GeomState) : List RegWrite → List GeomState
  | [] => [s]
  | w :: ws => s :: geomTrace (applyWrite s w) ws

/-- The geometry state after performing all writes. -/
def applyWrites (s : GeomState) (ws : List RegWrite) : GeomState :=
  ws.foldl applyWrite s

/-- The commanded offset-plus-size combination stays within the sensor
bounds (with nonnegative offsets). -/
def InBounds (wmax hmax : Int) (s : GeomState) : Prop :=
  0 ≤ s.offsetX ∧ 0 ≤ s.offsetY ∧
    s.offsetX + s.width ≤ wmax ∧ s.offsetY + s.height ≤ hmax

-- ## Helper lemmas

/-- Number of occurrences of a given register write in a write list. -/
def countWrite (t : RegWrite) : List RegWrite → Nat
  | [] => 0
  | w :: ws => (if w = t then 1 else 0) + countWrite t ws

lemma countWrite_append (t : RegWrite) (l1 l2 : List RegWrite) :
    countWrite t (l1 ++ l2) = countWrite t l1 + countWrite t l2 := by
  induction l1 with
  | nil => simp [countWrite]
  | cons w ws ih => simp [countWrite, ih]; omega

lemma countWrite_off_resetWrites (sels : List String) :
    countWrite ⟨"TriggerMode", .s "Off"⟩ (resetWrites sels) = sels.length := by
  induction sels with
  | nil => simp [resetWrites, countWrite]
  | cons s rest ih => simp [resetWrites, countWrite, ih]; omega

lemma countWrite_on_resetWrites (sels : List String) :
    countWrite ⟨"TriggerMode", .s "On"⟩ (resetWrites sels) = 0 := by
  induction sels with
  | nil => simp [resetWrites, countWrite]
  | cons s rest ih => simp [resetWrites, countWrite, ih]

lemma countWrite_acqmode_resetWrites (sels : List String) :
    countWrite ⟨"AcquisitionMode", .s "Continuous"⟩ (resetWrites sels) = 0 := by
  induction sels with
  | nil => simp [resetWrites, countWrite]
  | cons s rest ih => simp [resetWrites, countWrite, ih]

/-- Register names touched by `set_trigger`. -/
def trigRegNames : List String :=
  ["TriggerSelector", "TriggerMode", "TriggerSource", "TriggerActivation",
   "AcquisitionMode"]

lemma resetWrites_reg_mem (sels : List String) :
    ∀ w ∈ resetWrites sels, w.reg ∈ trigRegNames := by
  induction sels with
  | nil => simp [resetWrites]
  | cons s rest ih =>
    intro w hw
    simp only [resetWrites, List.mem_cons] at hw
    rcases hw with rfl | rfl | hw
    · simp [trigRegNames]
    · simp [trigRegNames]
    · exact ih w hw

lemma set_trigger_reg_mem (sels : List String) (source act : String) :
    ∀ w ∈ (set_trigger sels source act).1, w.reg ∈ trigRegNames := by
  intro w hw
  rcases hm : mapLookup TRIGGER_SOURCE_MAP (pyLower source) with _ | src
  · simp only [set_trigger, hm] at hw
    simp at hw
  · simp only [set_trigger, hm] at hw
    by_cases hsrc : src = "Off"
    · rw [if_pos hsrc] at hw
      simp only [List.mem_append, List.mem_cons, List.not_mem_nil, or_false] at hw
      rcases hw with hw | rfl
      · exact resetWrites_reg_mem sels w hw
      · simp [trigRegNames]
    · rw [if_neg hsrc] at hw
      rcases hc : chosenSelector sels with _ | sel
      · simp only [hc] at hw
        exact resetWrites_reg_mem sels w hw
      · simp only [hc] at hw
        simp only [List.mem_append, List.mem_cons, List.not_mem_nil, or_false] at hw
        rcases hw with ((hw | rfl | rfl | rfl) | hw) | rfl
        · exact resetWrites_reg_mem sels w hw
        · simp [trigRegNames]
        · simp [trigRegNames]
        · simp [trigRegNames]
        · by_cases hsw : src = "Software"
          · rw [if_pos hsw] at hw; simp at hw
          · rw [if_neg hsw] at hw
            simp only [List.mem_cons, List.not_mem_nil, or_false] at hw
            subst hw
            simp [trigRegNames]
        · simp [trigRegNames]

lemma iterAcq_not_grabbing (t : String) (w : Int) (fuel : Nat) (s : GrabState)
    (h : s.grabbing = false) : iterAcq t w fuel s = (0, [], s) := by
  cases fuel <;> simp [iterAcq, nextStep, h]

lemma iterAcq_bounded (t : String) (w : Int) :
    ∀ fuel N, 0 < N → N ≤ fuel →
      (iterAcq t w fuel ⟨true, some N⟩).1 = N ∧
      (iterAcq t w fuel ⟨true, some N⟩).2.2 = ⟨false, some 0⟩ ∧
      Cmd.stopGrab ∉ (iterAcq t w fuel ⟨true, some N⟩).2.1 := by
  intro fuel
  induction fuel with
  | zero => intro N h1 h2; omega
  | succ fuel ih =>
    intro N h1 h2
    by_cases hN : N ≤ 1
    · have hN1 : N = 1 := by omega
      subst hN1
      by_cases ht : t = "software"
      · subst ht
        simp [iterAcq, nextStep, retrieveStep, iterAcq_not_grabbing]
      · simp [iterAcq, nextStep, retrieveStep, ht, iterAcq_not_grabbing]
    · have h1' : 0 < N - 1 := by omega
      have h2' : N - 1 ≤ fuel := by omega
      obtain ⟨ih1, ih2, ih3⟩ := ih (N - 1) h1' h2'
      have hstep : retrieveStep ⟨true, some N⟩ = ⟨true, some (N - 1)⟩ := by
        simp [retrieveStep, hN]
      by_cases ht : t = "software"
      · subst ht
        simp only [iterAcq, nextStep, hstep, ih1, ih2, ih3]
        simp [ih1, ih2, ih3]
        omega
      · simp only [iterAcq, nextStep, hstep, ih1, ih2, ih3]
        simp [ht, ih1, ih2, ih3]
        omega

-- ## Claim C2: exposure fallback (base+raw scheme)

/-- C2 counterexample: for exposure 0.1 s with both direct exposure
registers rejected, the code writes raw = ceil(0.1 / 50) = 1, whereas the
claim's formula ceil(exposure / 50e-6) gives 2000. -/
theorem C2_counterexample :
    exposureWrites ⟨false, false, true, 1920, 1080⟩ (1 / 10) =
      [⟨"ExposureTimeBaseAbs", .q 100⟩, ⟨"ExposureTimeRaw", .i 1⟩,
       ⟨"ExposureTimeBaseAbs", .q 100000⟩] ∧
    (⌈(1 : Rat) / 10 / (50 / 1000000)⌉ : Int) = 2000 ∧ (1 : Int) ≠ 2000 := by
  refine ⟨?_, ceil_eval _ _ (by norm_num) (by norm_num), by decide⟩
  have h : ⌈(1 : Rat) / 500⌉ = 1 := ceil_eval _ _ (by norm_num) (by norm_num)
  simp [exposureWrites]
  norm_num [h]

/-- C2 (amended): when the device rejects both the direct and the legacy
absolute exposure registers, `prepare_acq` applies the base+raw scheme: it
sets the time base to 100, sets a raw count equal to ceil(exposure / 50)
(exposure in seconds — not ceil(exposure / 50e-6)), and then sets the base
to (exposure / raw) * 1e6, so that base * raw = exposure * 1e6 exactly. -/
theorem C2_amended (caps : DevCaps) (exposure : Rat)
    (h1 : caps.hasExposureTime = false) (h2 : caps.hasExposureTimeAbs = false)
    (he : 0 < exposure) :
    exposureWrites caps exposure =
      [⟨"ExposureTimeBaseAbs", .q 100⟩,
       ⟨"ExposureTimeRaw", .i ⌈exposure / 50⌉⟩,
       ⟨"ExposureTimeBaseAbs", .q ((exposure / (⌈exposure / 50⌉ : Rat)) * 1000000)⟩] ∧
    ((exposure / (⌈exposure / 50⌉ : Rat)) * 1000000) * (⌈exposure / 50⌉ : Rat) =
      exposure * 1000000 := by
  have hpos : (0 : Int) < ⌈exposure / 50⌉ := Int.ceil_pos.mpr (by positivity)
  have hne : ((⌈exposure / 50⌉ : Int) : Rat) ≠ 0 := by
    exact_mod_cast hpos.ne.symm
  constructor
  · simp [exposureWrites, h1, h2]
  · field_simp

/-- C2 witness: the amended theorem applied at exposure 0.1 s on a device
rejecting both direct exposure registers. -/
theorem C2_witness :
    exposureWrites ⟨false, false, true, 1920, 1080⟩ (1 / 10) =
      [⟨"ExposureTimeBaseAbs", .q 100⟩,
       ⟨"ExposureTimeRaw", .i ⌈(1 : Rat) / 10 / 50⌉⟩,
       ⟨"ExposureTimeBaseAbs",
        .q (((1 : Rat) / 10 / (⌈(1 : Rat) / 10 / 50⌉ : Rat)) * 1000000)⟩] ∧
    (((1 : Rat) / 10 / (⌈(1 : Rat) / 10 / 50⌉ : Rat)) * 1000000) *
        (⌈(1 : Rat) / 10 / 50⌉ : Rat) = (1 : Rat) / 10 * 1000000 :=
  C2_amended ⟨false, false, true, 1920, 1080⟩ (1 / 10) rfl rfl (by norm_num)

-- ## Claim C3: prepare is idempotent

/-- C3: calling `prepare` twice on the same Acquisition object performs the
register writes of `prepare_acq` exactly once — the first call performs
them all and the second call performs none. -/
theorem C3_prepare_idempotent (caps : DevCaps) (a : AcqObj)
    (h : a.prepared = false) :
    (a.prepare caps).2 =
      prepare_acq_writes caps a.exposure a.latency a.roi a.binning a.pixel_format ∧
    ((a.prepare caps).1.prepare caps).2 = [] := by
  simp [AcqObj.prepare, h]

/-- C3 witness: the idempotence theorem applied to a concrete unprepared
acquisition object. -/
theorem C3_witness :
    ((⟨false, 10, 1 / 10, 0, none, (1, 1), "Mono8", "internal"⟩ : AcqObj).prepare
        ⟨true, true, true, 1920, 1080⟩).2 =
      prepare_acq_writes ⟨true, true, true, 1920, 1080⟩ (1 / 10) 0 none (1, 1)
        "Mono8" ∧
    (((⟨false, 10, 1 / 10, 0, none, (1, 1), "Mono8", "internal"⟩ : AcqObj).prepare
        ⟨true, true, true, 1920, 1080⟩).1.prepare ⟨true, true, true, 1920, 1080⟩).2 =
      [] :=
  C3_prepare_idempotent ⟨true, true, true, 1920, 1080⟩ _ rfl

-- ## Claim C4: the per-frame retrieval timeout

/-- C4 counterexample: for exposure 0.0005 s and latency 0, the code's
`int((period + 1) * 1000)` gives 1000, while the claim's
ceil((exposure + latency + 1) * 1000) gives 1001. -/
theorem C4_counterexample :
    (⟨false, 1, 1 / 2000, 0, none, (1, 1), "Mono8", "internal"⟩ : AcqObj).wait_ms =
      1000 ∧
    (⌈(((1 : Rat) / 2000) + 0 + 1) * 1000⌉ : Int) = 1001 ∧ (1000 : Int) ≠ 1001 := by
  refine ⟨?_, ceil_eval _ _ (by norm_num) (by norm_num), by decide⟩
  show pyInt (((1 / 2000 + 0 : Rat) + 1) * 1000) = 1000
  rw [pyInt, if_pos (by norm_num)]
  exact floor_eval _ _ (by norm_num) (by norm_num)

/-- C4 (amended): for nonnegative exposure and latency the per-frame
retrieval timeout equals floor((exposure + latency + 1) * 1000)
milliseconds (truncation, not ceiling); in particular for exposure 0.1 s
and latency 0.05 s it equals 1150 ms, hence is at least 1150 ms. -/
theorem C4_amended (a : AcqObj) (he : 0 ≤ a.exposure) (hl : 0 ≤ a.latency) :
    a.wait_ms = ⌊(a.exposure + a.latency + 1) * 1000⌋ ∧
    (a.exposure = 1 / 10 → a.latency = 1 / 20 →
      a.wait_ms = 1150 ∧ 1150 ≤ a.wait_ms) := by
  have hge : (0 : Rat) ≤ (a.exposure + a.latency + 1) * 1000 := by
    have : (0 : Rat) ≤ a.exposure + a.latency + 1 := by linarith
    nlinarith
  have hfl : a.wait_ms = ⌊(a.exposure + a.latency + 1) * 1000⌋ := by
    rw [AcqObj.wait_ms, AcqObj.period, pyInt, if_pos hge]
  refine ⟨hfl, fun h1 h2 => ?_⟩
  have : a.wait_ms = 1150 := by
    rw [hfl, h1, h2]
    exact floor_eval _ _ (by norm_num) (by norm_num)
  exact ⟨this, by omega⟩

/-- C4 witness: the amended theorem evaluated at exposure 0.1 s and
latency 0.05 s. -/
theorem C4_witness :
    (⟨false, 1, 1 / 10, 1 / 20, none, (1, 1), "Mono8", "internal"⟩ : AcqObj).wait_ms =
      1150 ∧
    1150 ≤
      (⟨false, 1, 1 / 10, 1 / 20, none, (1, 1), "Mono8", "internal"⟩ : AcqObj).wait_ms :=
  (C4_amended _ (by norm_num) (by norm_num)).2 rfl rfl

-- ## Claim C9: invalid trigger source raises KeyError before any write

/-- C9: for every source string whose lowercase form is none of
"internal", "line1", "software", `set_trigger` raises a KeyError from the
TRIGGER_SOURCE_MAP lookup before performing any device register write. -/
theorem C9_invalid_source (selectors : List String) (source activation : String)
    (h1 : pyLower source ≠ "internal") (h2 : pyLower source ≠ "line1")
    (h3 : pyLower source ≠ "software") :
    set_trigger selectors source activation =
      ([], some (.keyError (pyLower source))) := by
  simp [set_trigger, TRIGGER_SOURCE_MAP, mapLookup, h1, h2, h3]

/-- C9 witness: the unknown source "Line2" raises KeyError with no writes
performed. -/
theorem C9_witness :
    set_trigger ["FrameStart"] "Line2" "RisingEdge" =
      ([], some (.keyError "line2")) := by
  have h := C9_invalid_source ["FrameStart"] "Line2" "RisingEdge"
    (by decide) (by decide) (by decide)
  rw [show pyLower "Line2" = "line2" from by decide] at h
  exact h

-- ## Claim C10: parameter_encode only handles four node types

/-- C10: `parameter_encode` can return a converted value only for integer,
float, string and boolean nodes; for a parameter of any other node type
(enumeration, category, command, register) the call fails with an
unbound-local error instead of returning a value. -/
theorem C10_encode_unbound (ptype : NodeType) (v : PyValue) :
    parameter_encode ptype v = .unboundLocal ↔
      ptype ∉ [NodeType.IInteger, .IFloat, .IString, .IBoolean] := by
  cases ptype <;> cases v <;>
    simp [parameter_encode, pyToInt, pyToFloat, pyToStr]
  case IInteger.str s =>
    cases h : s.toInt? <;> simp [h]

-- ## Claim C5: set_trigger with a non-internal source

/-- C5: with a valid non-internal source (mapped value not "Off") and a
chosen selector, `set_trigger` first selects every available selector and
forces its mode Off (one Off write per selector), then sets exactly one
selector — FrameStart if present, else the first available — to mode On
with the requested source, writes the activation edge only when the source
is not Software, and finally sets AcquisitionMode to Continuous. -/
theorem C5_set_trigger_trace (selectors : List String)
    (source activation src sel0 : String)
    (hmap : mapLookup TRIGGER_SOURCE_MAP (pyLower source) = some src)
    (hoff : src ≠ "Off")
    (hsel : chosenSelector selectors = some sel0) :
    set_trigger selectors source activation =
      (resetWrites selectors
        ++ [⟨"TriggerSelector", .s sel0⟩, ⟨"TriggerMode", .s "On"⟩,
            ⟨"TriggerSource", .s src⟩]
        ++ (if src = "Software" then []
            else [⟨"TriggerActivation", .s activation⟩])
        ++ [⟨"AcquisitionMode", .s "Continuous"⟩], none) ∧
    countWrite ⟨"TriggerMode", .s "Off"⟩ (set_trigger selectors source activation).1 =
      selectors.length ∧
    countWrite ⟨"TriggerMode", .s "On"⟩ (set_trigger selectors source activation).1 =
      1 ∧
    countWrite ⟨"AcquisitionMode", .s "Continuous"⟩
      (set_trigger selectors source activation).1 = 1 := by
  have htr : set_trigger selectors source activation =
      (resetWrites selectors
        ++ [⟨"TriggerSelector", .s sel0⟩, ⟨"TriggerMode", .s "On"⟩,
            ⟨"TriggerSource", .s src⟩]
        ++ (if src = "Software" then []
            else [⟨"TriggerActivation", .s activation⟩])
        ++ [⟨"AcquisitionMode", .s "Continuous"⟩], none) := by
    simp [set_trigger, hmap, hoff, hsel]
  refine ⟨htr, ?_, ?_, ?_⟩ <;>
    · rw [htr]
      by_cases hsw : src = "Software" <;>
        simp [hsw, countWrite_append, countWrite, countWrite_off_resetWrites,
          countWrite_on_resetWrites, countWrite_acqmode_resetWrites, hoff]

/-- C5 witness: the theorem applied to selector list
["FrameStart", "LineStart"] with source "software". -/
theorem C5_witness :
    countWrite ⟨"TriggerMode", .s "Off"⟩
      (set_trigger ["FrameStart", "LineStart"] "software" "RisingEdge").1 = 2 ∧
    countWrite ⟨"TriggerMode", .s "On"⟩
      (set_trigger ["FrameStart", "LineStart"] "software" "RisingEdge").1 = 1 ∧
    countWrite ⟨"AcquisitionMode", .s "Continuous"⟩
      (set_trigger ["FrameStart", "LineStart"] "software" "RisingEdge").1 = 1 :=
  (C5_set_trigger_trace ["FrameStart", "LineStart"] "software" "RisingEdge"
    "Software" "FrameStart" (by decide) (by decide) (by decide)).2

-- ## Claim C7: order of binning writes relative to size writes

/-- C7 counterexample: for a plan with binning (2, 2) the write at index 13
is the plan's BinningHorizontal write, the last Width/Height write is at
index 10, and no Width or Height write occurs past index 10 — so the
plan's binning writes come after, not before, the final size writes. -/
theorem C7_counterexample :
    (prepare_acq_writes ⟨true, true, true, 16, 16⟩ (1 / 10) 0 none (2, 2)
        "Mono8").getD 13 ⟨"", .b false⟩ = ⟨"BinningHorizontal", .i 2⟩ ∧
    (prepare_acq_writes ⟨true, true, true, 16, 16⟩ (1 / 10) 0 none (2, 2)
        "Mono8").getD 10 ⟨"", .b false⟩ = ⟨"Height", .i 16⟩ ∧
    (prepare_acq_writes ⟨true, true, true, 16, 16⟩ (1 / 10) 0 none (2, 2)
        "Mono8").length = 15 ∧
    ∀ w ∈ (prepare_acq_writes ⟨true, true, true, 16, 16⟩ (1 / 10) 0 none (2, 2)
        "Mono8").drop 11, w.reg ≠ "Width" ∧ w.reg ≠ "Height" := by
  have h0 : (0 : Rat) < 1 / 1000000 := by norm_num
  have htr : prepare_acq_writes ⟨true, true, true, 16, 16⟩ (1 / 10) 0 none (2, 2)
      "Mono8" =
      [⟨"ExposureTime", .q ((1 : Rat) / 10 * 1000000)⟩,
       ⟨"AcquisitionFrameRateEnable", .b false⟩,
       ⟨"BinningHorizontal", .i 1⟩, ⟨"BinningVertical", .i 1⟩,
       ⟨"OffsetX", .i 0⟩, ⟨"OffsetY", .i 0⟩,
       ⟨"Width", .i 16⟩, ⟨"Height", .i 16⟩,
       ⟨"PixelFormat", .s "Mono8"⟩,
       ⟨"Width", .i 16⟩, ⟨"Height", .i 16⟩,
       ⟨"OffsetX", .i 0⟩, ⟨"OffsetY", .i 0⟩,
       ⟨"BinningHorizontal", .i 2⟩, ⟨"BinningVertical", .i 2⟩] := by
    simp [prepare_acq_writes, exposureWrites, frameRateWrites, h0]
  rw [htr]
  refine ⟨rfl, rfl, rfl, ?_⟩
  decide

/-- C7 (amended): for a plan with binning other than (1, 1), the plan's
binning writes are the last two writes of `prepare_acq`, occurring after
the final Width and Height writes (every Width/Height write lies in the
preceding prefix). -/
theorem C7_amended (caps : DevCaps) (e l : Rat)
    (roi : Option (Int × Int × Int × Int)) (binning : Int × Int) (pf : String)
    (h : binning ≠ (1, 1)) :
    ∃ pre, prepare_acq_writes caps e l roi binning pf =
        pre ++ [⟨"BinningHorizontal", .i binning.1⟩,
                ⟨"BinningVertical", .i binning.2⟩] ∧
      "Width" ∈ pre.map RegWrite.reg ∧ "Height" ∈ pre.map RegWrite.reg := by
  refine ⟨exposureWrites caps e
    ++ frameRateWrites e l
    ++ (if caps.hasBinning then
          [⟨"BinningHorizontal", .i 1⟩, ⟨"BinningVertical", .i 1⟩]
        else [])
    ++ [⟨"OffsetX", .i 0⟩, ⟨"OffsetY", .i 0⟩,
        ⟨"Width", .i caps.widthMax⟩, ⟨"Height", .i caps.heightMax⟩,
        ⟨"PixelFormat", .s pf⟩]
    ++ [⟨"Width", .i (roi.getD (0, 0, caps.widthMax, caps.heightMax)).2.2.1⟩,
        ⟨"Height", .i (roi.getD (0, 0, caps.widthMax, caps.heightMax)).2.2.2⟩,
        ⟨"OffsetX", .i (roi.getD (0, 0, caps.widthMax, caps.heightMax)).1⟩,
        ⟨"OffsetY", .i (roi.getD (0, 0, caps.widthMax, caps.heightMax)).2.1⟩],
    ?_, ?_, ?_⟩
  · simp [prepare_acq_writes, h]
    exact fun hb => h (by simpa using hb)
  · simp
  · simp

/-- C7 witness: the amended theorem applied to a concrete plan with
binning (2, 2). -/
theorem C7_witness :
    ∃ pre, prepare_acq_writes ⟨true, true, true, 16, 16⟩ (1 / 10) 0 none (2, 2)
        "Mono8" =
        pre ++ [⟨"BinningHorizontal", .i 2⟩, ⟨"BinningVertical", .i 2⟩] ∧
      "Width" ∈ pre.map RegWrite.reg ∧ "Height" ∈ pre.map RegWrite.reg :=
  C7_amended ⟨true, true, true, 16, 16⟩ (1 / 10) 0 none (2, 2) "Mono8" (by decide)

-- ## Claim C8: network pacing only on GigE; failure aborts later steps

/-- C8 counterexample: on a GigE device whose packet-size write raises,
`apply_config` performs no write at all — in particular neither the trigger
setup nor the OutputQueueSize write happens — and `OnOpened` logs the
exception; so the failure does prevent the subsequent configuration
steps, contrary to the claim. -/
theorem C8_counterexample :
    (apply_config ⟨true, ["GevSCPSPacketSize"], true, ["FrameStart"]⟩
        ⟨1500, 0, 0, 5, "internal"⟩).1 = [] ∧
    (apply_config ⟨true, ["GevSCPSPacketSize"], true, ["FrameStart"]⟩
        ⟨1500, 0, 0, 5, "internal"⟩).2 = some "GevSCPSPacketSize" ∧
    (OnOpened ⟨true, ["GevSCPSPacketSize"], true, ["FrameStart"]⟩
        ⟨1500, 0, 0, 5, "internal"⟩).2 = true := by
  refine ⟨?_, ?_, ?_⟩ <;> decide

/-- Register names written by `apply_config` on a non-GigE device: only
trigger registers and the output queue size. -/
lemma apply_config_nonGigE_regs (dev : NetDev) (cfg : NetConfig)
    (hg : dev.isGigE = false) :
    ∀ w ∈ (apply_config dev cfg).1,
      w.reg ∈ trigRegNames ∨ w.reg = "OutputQueueSize" := by
  intro w hw
  have hts := set_trigger_reg_mem dev.selectors cfg.trigger_source "RisingEdge"
  rcases hst : set_trigger dev.selectors cfg.trigger_source "RisingEdge" with ⟨tw, te⟩
  rw [hst] at hts
  by_cases ht : dev.triggerWritable <;>
    by_cases hq : "OutputQueueSize" ∈ dev.failing <;>
      rcases te with _ | e <;>
        simp only [apply_config, hg, ht, hq, hst, writeSeq, Bool.false_eq_true,
          Bool.true_eq_false, if_false, if_true, ite_true, ite_false,
          if_neg, reduceCtorEq, List.nil_append, List.append_nil,
          List.mem_append, List.mem_cons, List.not_mem_nil, or_false,
          false_or] at hw <;>
        first
          | exact Or.inl (hts w hw)
          | (subst hw; exact Or.inr rfl)
          | (rcases hw with hw1 | hw1 <;>
              first
                | exact Or.inl (hts w hw1)
                | (subst hw1; exact Or.inr rfl))

/-- C8 (amended): the GigE pacing registers are written only on a
network-transport device; any exception in `apply_config` is caught and
logged by `OnOpened`; but a failure while writing the pacing registers
aborts `apply_config`, so the subsequent steps (trigger setup, output
queue size) are *not* applied — when the first pacing write raises,
nothing at all is written. -/
theorem C8_apply_config (dev : NetDev) (cfg : NetConfig) :
    (dev.isGigE = false →
      ∀ w ∈ (apply_config dev cfg).1,
        w.reg ≠ "GevSCPSPacketSize" ∧ w.reg ≠ "GevSCPD" ∧ w.reg ≠ "GevSCFTD") ∧
    ((apply_config dev cfg).2.isSome = true → (OnOpened dev cfg).2 = true) ∧
    (dev.isGigE = true → "GevSCPSPacketSize" ∈ dev.failing →
      (apply_config dev cfg).2.isSome = true ∧ (apply_config dev cfg).1 = []) := by
  refine ⟨?_, ?_, ?_⟩
  · intro hg w hw
    rcases apply_config_nonGigE_regs dev cfg hg w hw with hreg | hreg
    · simp only [trigRegNames, List.mem_cons, List.not_mem_nil, or_false] at hreg
      rcases hreg with h | h | h | h | h <;> simp [h]
    · simp [hreg]
  · intro hsome
    rcases happ : apply_config dev cfg with ⟨ws, err⟩
    rcases err with _ | e
    · rw [happ] at hsome
      simp at hsome
    · simp [OnOpened, happ]
  · intro hg hf
    simp [apply_config, hg, writeSeq, hf]

/-- C8 witness: the theorem applied to the failing GigE device of the
counterexample, showing that `apply_config` raises and writes nothing. -/
theorem C8_witness :
    (apply_config ⟨true, ["GevSCPSPacketSize", "ExtraReg"], true, ["FrameStart"]⟩
        ⟨1500, 0, 0, 5, "internal"⟩).2.isSome = true ∧
    (apply_config ⟨true, ["GevSCPSPacketSize", "ExtraReg"], true, ["FrameStart"]⟩
        ⟨1500, 0, 0, 5, "internal"⟩).1 = [] :=
  (C8_apply_config ⟨true, ["GevSCPSPacketSize", "ExtraReg"], true, ["FrameStart"]⟩
    ⟨1500, 0, 0, 5, "internal"⟩).2.2 rfl (by decide)

-- ## Claim C6: ROI (100,50,640,480) on a 1920x1080 sensor

/-- C6: for ROI (x=100, y=50, w=640, h=480) on a sensor of maximum size
1920x1080 and unit binning, after `prepare_acq` the device geometry is
width 640, height 480, offsetX 100, offsetY 50, and — starting from any
in-bounds register state — every intermediate state in the write sequence
keeps offset-plus-size within the 1920x1080 sensor bounds. -/
theorem C6_roi_invariant (hET hETA hBin : Bool) (e l : Rat) (pf : String)
    (s0 : GeomState) (h : InBounds 1920 1080 s0) :
    (∀ s ∈ geomTrace s0 (prepare_acq_writes ⟨hET, hETA, hBin, 1920, 1080⟩ e l
        (some (100, 50, 640, 480)) (1, 1) pf), InBounds 1920 1080 s) ∧
    applyWrites s0 (prepare_acq_writes ⟨hET, hETA, hBin, 1920, 1080⟩ e l
        (some (100, 50, 640, 480)) (1, 1) pf) = ⟨100, 50, 640, 480⟩ := by
  obtain ⟨h1, h2, h3, h4⟩ := h
  have hfr : frameRateWrites e l = [⟨"AcquisitionFrameRateEnable", .b false⟩] ∨
      frameRateWrites e l = [⟨"AcquisitionFrameRateEnable", .b true⟩,
        ⟨"AcquisitionFrameRateAbs", .q (1 / (l + e))⟩] := by
    by_cases hl : l < 1 / 1000000
    · exact Or.inl (by rw [frameRateWrites, if_pos hl])
    · exact Or.inr (by rw [frameRateWrites, if_neg hl])
  cases hET <;> cases hETA <;> cases hBin <;> rcases hfr with hfr | hfr <;>
    (simp [prepare_acq_writes, exposureWrites, hfr, geomTrace,
      applyWrite, applyWrites, InBounds, Val.toIntD]
     omega)

/-- C6 witness: the invariant theorem applied at a full-frame initial
state on a device with all capabilities. -/
theorem C6_witness :
    (∀ s ∈ geomTrace ⟨0, 0, 1920, 1080⟩
        (prepare_acq_writes ⟨true, true, true, 1920, 1080⟩ (1 / 10) 0
          (some (100, 50, 640, 480)) (1, 1) "Mono8"),
      InBounds 1920 1080 s) ∧
    applyWrites ⟨0, 0, 1920, 1080⟩
        (prepare_acq_writes ⟨true, true, true, 1920, 1080⟩ (1 / 10) 0
          (some (100, 50, 640, 480)) (1, 1) "Mono8") = ⟨100, 50, 640, 480⟩ :=
  C6_roi_invariant true true true (1 / 10) 0 "Mono8" ⟨0, 0, 1920, 1080⟩
    (by norm_num [InBounds])

-- ## Claim C1: frame count and stop-grab behaviour of the sequencer

/-- Number of StopGrabbing commands in a command trace. -/
def countStop : List Cmd → Nat
  | [] => 0
  | c :: cs => (if c = Cmd.stopGrab then 1 else 0) + countStop cs

lemma countStop_append (l1 l2 : List Cmd) :
    countStop (l1 ++ l2) = countStop l1 + countStop l2 := by
  induction l1 with
  | nil => simp [countStop]
  | cons c cs ih => simp [countStop, ih]; omega

lemma countStop_eq_zero (l : List Cmd) (h : Cmd.stopGrab ∉ l) :
    countStop l = 0 := by
  induction l with
  | nil => simp [countStop]
  | cons c cs ih =>
    simp only [List.mem_cons, not_or] at h
    have hc : c ≠ Cmd.stopGrab := fun hc => h.1 hc.symm
    simp [countStop, hc, ih h.2]

lemma map_write_no_stop (l : List RegWrite) :
    Cmd.stopGrab ∉ l.map Cmd.write := by
  simp [List.mem_map]

lemma countStop_cons_other (c : Cmd) (cs : List Cmd) (h : c ≠ Cmd.stopGrab) :
    countStop (c :: cs) = countStop cs := by
  simp [countStop, h]

/-- C1 counterexample: a bounded acquisition of 2 frames yields exactly 2
frame outcomes, but the complete command trace of the acquisition run
contains zero StopGrabbing commands, not exactly one — `ensure_grab_stop`
is never applied by the sequencer and `Acquisition.__exit__` is a no-op. -/
theorem C1_counterexample :
    (acquisitionSession ⟨true, true, true, 16, 16⟩
        ⟨false, 2, 1 / 10, 0, none, (1, 1), "Mono8", "internal"⟩ 5).1 = 2 ∧
    countStop (acquisitionSession ⟨true, true, true, 16, 16⟩
        ⟨false, 2, 1 / 10, 0, none, (1, 1), "Mono8", "internal"⟩ 5).2 ≠ 1 := by
  have hb := iterAcq_bounded "internal"
    ((⟨false, 2, 1 / 10, 0, none, (1, 1), "Mono8", "internal"⟩ : AcqObj).wait_ms)
    5 2 (by omega) (by omega)
  have hstart :
      (⟨false, 2, 1 / 10, 0, none, (1, 1), "Mono8", "internal"⟩ : AcqObj).start =
        (Cmd.startGrabMax 2, ⟨true, some 2⟩) := by
    rw [AcqObj.start, if_pos (by decide)]
  constructor
  · simp only [acquisitionSession, hstart, hb.1]
  · simp only [acquisitionSession, hstart]
    rw [countStop_append, countStop_cons_other _ _ (by simp),
      countStop_eq_zero _ (map_write_no_stop _), countStop_eq_zero _ hb.2.2]
    simp

/-- C1 (amended): for a plan with nb_frames = N > 0 (and enough fuel),
iterating the Acquisition sequencer yields exactly N frame outcomes and
then terminates (the grab state is no longer grabbing and the next step
raises StopIteration); however the sequencer's own command trace contains
zero stop-grabbing commands — `Acquisition.__exit__` issues nothing.  It
is the separate `ensure_grab_stop` context manager that, when wrapped
around a body, issues exactly one additional StopGrabbing on every exit
path, normal or exceptional. -/
theorem C1_sequencer (caps : DevCaps) (a : AcqObj) (fuel : Nat)
    (hN : 0 < a.nb_frames) (hfuel : a.nb_frames ≤ fuel) :
    (acquisitionSession caps a fuel).1 = a.nb_frames ∧
    nextStep a.trigger a.wait_ms
      (iterAcq a.trigger a.wait_ms fuel ⟨true, some a.nb_frames⟩).2.2 = none ∧
    countStop (acquisitionSession caps a fuel).2 = 0 ∧
    (∀ body : List Cmd × Option String,
      countStop (ensure_grab_stop body).1 = countStop body.1 + 1) := by
  have hne : a.nb_frames ≠ 0 := by omega
  obtain ⟨hb1, hb2, hb3⟩ :=
    iterAcq_bounded a.trigger a.wait_ms fuel a.nb_frames hN hfuel
  have hstart : a.start = (Cmd.startGrabMax a.nb_frames, ⟨true, some a.nb_frames⟩) := by
    rw [AcqObj.start, if_pos hne]
  refine ⟨?_, ?_, ?_, ?_⟩
  · simp [acquisitionSession, hstart, hb1]
  · rw [hb2]
    simp [nextStep]
  · simp [acquisitionSession, hstart, countStop_append, countStop,
      countStop_eq_zero _ (map_write_no_stop _), countStop_eq_zero _ hb3]
  · intro body
    simp [ensure_grab_stop, countStop_append, countStop]

/-- C1 witness: the amended theorem applied to a 3-frame internal-trigger
acquisition with fuel 10. -/
theorem C1_witness :
    (acquisitionSession ⟨true, true, false, 32, 32⟩
        ⟨false, 3, 1 / 100, 0, none, (1, 1), "Mono8", "internal"⟩ 10).1 = 3 ∧
    nextStep "internal"
      (⟨false, 3, 1 / 100, 0, none, (1, 1), "Mono8", "internal"⟩ : AcqObj).wait_ms
      (iterAcq "internal"
        (⟨false, 3, 1 / 100, 0, none, (1, 1), "Mono8", "internal"⟩ : AcqObj).wait_ms
        10 ⟨true, some 3⟩).2.2 = none ∧
    countStop (acquisitionSession ⟨true, true, false, 32, 32⟩
        ⟨false, 3, 1 / 100, 0, none, (1, 1), "Mono8", "internal"⟩ 10).2 = 0 ∧
    (∀ body : List Cmd × Option String,
      countStop (ensure_grab_stop body).1 = countStop body.1 + 1) :=
  C1_sequencer ⟨true, true, false, 32, 32⟩
    ⟨false, 3, 1 / 100, 0, none, (1, 1), "Mono8", "internal"⟩ 10
    (by decide) (by decide)
